import Mathlib

/-
Verification of the MentorConnect session-lifecycle and payment-settlement
workflow.  The definitions below are a shallow embedding of the Python
source under app/: rows of the relational models (models.py) become Lean
structures, the service-layer functions (services.py) and the route
handlers (mentorship/routes.py, mentorship/payment_routes.py) become pure
Lean functions that thread the relevant table state explicitly.  Calls to
external collaborators (the Razorpay gateway, the mail and SMS transports)
are parameters of the embedded functions: an `Except String _` argument
stands for the outcome of the one remote call the source makes, its
`error` case standing for the exception the Python client raises.
Timestamps (`datetime.utcnow()`) are passed in as a `now : Nat` argument;
column defaults `created_at`/`updated_at` that no claim depends on are
elided except `updated_at`, which verify_payment and refund_payment set
explicitly in the source.
-/

namespace MentorMatch

/-- Embeds `app.models.Payment` (models.py).  `amount` is an `Int` because
the only writer, PaymentForm.amount, is a WTForms IntegerField.  Fields the
source never reads or writes in the verified code paths (`created_at`) are
elided. -/
structure Payment where
  id : Nat
  session_id : Nat
  student_id : Nat
  mentor_id : Nat
  amount : Int
  currency : String := "INR"
  razorpay_order_id : Option String := none
  razorpay_payment_id : Option String := none
  status : String := "pending"
  payment_method : Option String := none
  updated_at : Nat := 0
deriving Repr, DecidableEq

/-- Embeds `app.models.User` (models.py): only the fields the verified
handlers read. -/
structure User where
  id : Nat
  name : String := ""
  role : String := "student"
deriving Repr, DecidableEq

/-- Embeds `User.is_mentor` (models.py). -/
def User.is_mentor (u : User) : Bool := u.role == "mentor"

/-- Embeds `User.is_student` (models.py). -/
def User.is_student (u : User) : Bool := u.role == "student"

/-- Embeds `User.is_admin` (models.py). -/
def User.is_admin (u : User) : Bool := u.role == "admin"

/-- Embeds `app.models.Session` (models.py).  `description` is nullable in
the model, hence `Option String`; `scheduled_at` is a timestamp in
seconds. -/
structure Session where
  id : Nat
  student_id : Nat
  mentor_id : Nat
  topic : String := ""
  description : Option String := none
  scheduled_at : Nat := 0
  status : String := "requested"
deriving Repr, DecidableEq

/-- Embeds `app.models.Notification` (models.py): an in-app inbox entry. -/
structure Notification where
  user_id : Nat
  message : String
deriving Repr, DecidableEq

/-- Embeds `app.models.Review` (models.py). -/
structure Review where
  session_id : Nat
  student_id : Nat
  mentor_id : Nat
  rating : Int
  comment : String
deriving Repr, DecidableEq

/-- SQLAlchemy `Query.filter_by(...).first()` followed by an in-place
mutation and commit: rewrite the first row satisfying `q` with `f`,
leaving every other row alone. -/
def update_first (q : α → Bool) (f : α → α) : List α → List α
  | [] => []
  | x :: xs => if q x then f x :: xs else x :: update_first q f xs

/-- The `filter_by(razorpay_order_id=order_id)` predicate used by
verify_payment and by the payment-method write-back in the
initiate_payment route. -/
def payment_order_matches (order_id : String) (p : Payment) : Bool :=
  p.razorpay_order_id == some order_id

/-- The `Payment.query.get(payment_id)` predicate used by
refund_payment. -/
def payment_id_matches (payment_id : Nat) (p : Payment) : Bool :=
  p.id == payment_id

/-- The signature payload the Razorpay client checks the HMAC against:
`razorpay_order_id + "|" + razorpay_payment_id` (razorpay.Utility). -/
def sig_payload (order_id payment_id : String) : String :=
  order_id ++ "|" ++ payment_id

/-- The in-place row mutation verify_payment performs on the matching
Payment (services.py lines 87 to 89). -/
def verify_update (payment_id : String) (now : Nat) (p : Payment) : Payment :=
  { p with razorpay_payment_id := some payment_id,
           status := "completed",
           updated_at := now }

/-- Result dict of `PaymentService.verify_payment`: `ok` is the
`{'success': True, 'payment_id': payment.id}` branch, `err` carries the
error string of the failure dict. -/
inductive VerifyResult where
  | ok (payment_row_id : Nat)
  | err (msg : String)
deriving Repr, DecidableEq

/-- Embeds `PaymentService.verify_payment` (services.py lines 69 to 96).
`hmac` is the shared-secret HMAC of the gateway client: the library call
`client.utility.verify_payment_signature` raises (caught by the `except`,
returning the failure dict with the exception text, before any query or
mutation) unless the supplied signature equals the HMAC of
`order_id + "|" + payment_id`.  On a valid signature the first Payment
with the given order id is stamped with the payment id, moved to
`completed` and timestamped; a missing row yields the
`Payment record not found` failure dict. -/
def verify_payment (hmac : String → String) (now : Nat)
    (order_id payment_id signature : String) (db : List Payment) :
    VerifyResult × List Payment :=
  if signature = hmac (sig_payload order_id payment_id) then
    match db.find? (payment_order_matches order_id) with
    | some pay =>
        (VerifyResult.ok pay.id,
         update_first (payment_order_matches order_id)
           (verify_update payment_id now) db)
    | none => (VerifyResult.err "Payment record not found", db)
  else
    (VerifyResult.err "Razorpay Signature Verification Failed", db)

theorem update_first_cons (q : α → Bool) (f : α → α) (x : α) (xs : List α) :
    update_first q f (x :: xs) =
      if q x then f x :: xs else x :: update_first q f xs := rfl

/-- If `f` preserves the search predicate, updating the first match does
not move it: `find?` afterwards returns the image of the row it returned
before. -/
theorem find?_update_first (q : α → Bool) (f : α → α)
    (hpres : ∀ x, q (f x) = q x) :
    ∀ (l : List α) (a : α), l.find? q = some a →
      (update_first q f l).find? q = some (f a) := by
  intro l
  induction l with
  | nil => intro a h; simp [List.find?] at h
  | cons x xs ih =>
      intro a h
      by_cases hq : q x
      · have hax : a = x := by
          simp [List.find?_cons, hq] at h
          exact h.symm
        subst hax
        simp [update_first_cons, hq, List.find?_cons, hpres]
      · have hx : xs.find? q = some a := by
          simpa [List.find?_cons, hq] using h
        simp only [update_first_cons, if_neg hq]
        simpa [List.find?_cons, hq] using ih a hx

/-- Two successive first-match updates with a predicate-preserving first
update collapse to one composite update. -/
theorem update_first_update_first (q : α → Bool) (f g : α → α)
    (hpres : ∀ x, q (f x) = q x) :
    ∀ l : List α, update_first q g (update_first q f l) =
      update_first q (fun x => g (f x)) l := by
  intro l
  induction l with
  | nil => rfl
  | cons x xs ih =>
      by_cases hq : q x
      · simp [update_first_cons, hq, hpres]
      · simp [update_first_cons, hq, ih]

/-- Projections that cannot tell the two row updates apart cannot tell the
two updated tables apart. -/
theorem map_update_first_congr (q : α → Bool) (f g : α → α) (pr : α → β)
    (hfg : ∀ x, pr (f x) = pr (g x)) :
    ∀ l : List α, (update_first q f l).map pr = (update_first q g l).map pr := by
  intro l
  induction l with
  | nil => rfl
  | cons x xs ih =>
      by_cases hq : q x
      · simp [update_first_cons, hq, hfg]
      · simp [update_first_cons, hq, ih]

/-- Updating the first match in a table whose only match is the freshly
appended last row rewrites exactly that row. -/
theorem update_first_append_singleton (q : α → Bool) (f : α → α) :
    ∀ (l : List α) (x : α), (∀ y ∈ l, q y = false) → q x = true →
      update_first q f (l ++ [x]) = l ++ [f x] := by
  intro l
  induction l with
  | nil => intro x _ hx; simp [update_first_cons, hx]
  | cons y ys ih =>
      intro x h hx
      have hy : q y = false := h y (List.mem_cons_self y ys)
      have hys : ∀ z ∈ ys, q z = false := fun z hz => h z (List.mem_cons_of_mem y hz)
      simp [update_first_cons, hy, ih x hys hx]

/-- C1: a signature that does not validate against order_id and payment_id
under the shared secret makes verify_payment return the failure dict and
leave the payment table exactly as it was: every pending Payment keeps
status `pending` and its gateway payment id stays unstamped. -/
theorem verify_payment_tampered_signature (hmac : String → String) (now : Nat)
    (order_id payment_id signature : String) (db : List Payment)
    (hsig : signature ≠ hmac (sig_payload order_id payment_id)) :
    verify_payment hmac now order_id payment_id signature db =
      (VerifyResult.err "Razorpay Signature Verification Failed", db) := by
  simp [verify_payment, hsig]

/-- Witness for C1: a concrete pending payment, a concrete HMAC and a
tampered signature. -/
theorem verify_payment_tampered_signature_witness :
    verify_payment (fun s => s ++ "#mac") 7 "order_1" "pay_1" "forged"
        [{ id := 1, session_id := 10, student_id := 1, mentor_id := 2,
           amount := 500, razorpay_order_id := some "order_1" }] =
      (VerifyResult.err "Razorpay Signature Verification Failed",
       [{ id := 1, session_id := 10, student_id := 1, mentor_id := 2,
          amount := 500, razorpay_order_id := some "order_1" }]) :=
  verify_payment_tampered_signature (fun s => s ++ "#mac") 7 "order_1" "pay_1"
    "forged" _ (by decide)

/-- The verify_update mutation does not touch `razorpay_order_id`, so the
`filter_by(razorpay_order_id=...)` predicate is preserved by it. -/
theorem payment_order_matches_verify_update (order_id payment_id : String)
    (now : Nat) (p : Payment) :
    payment_order_matches order_id (verify_update payment_id now p) =
      payment_order_matches order_id p := rfl

/-- C2: with a valid signature and a matching payment row, the first
verify_payment call succeeds and completes the row, and a second call with
the same triple leaves every status in the payment table exactly as the
first call left it: in particular the matched row stays `completed`. -/
theorem verify_payment_idempotent_status (hmac : String → String)
    (now1 now2 : Nat) (order_id payment_id signature : String)
    (db : List Payment) (pay : Payment)
    (hsig : signature = hmac (sig_payload order_id payment_id))
    (hfind : db.find? (payment_order_matches order_id) = some pay) :
    (verify_payment hmac now1 order_id payment_id signature db).1 =
        VerifyResult.ok pay.id ∧
    ((verify_payment hmac now1 order_id payment_id signature db).2.find?
        (payment_order_matches order_id)).map Payment.status = some "completed" ∧
    (verify_payment hmac now2 order_id payment_id signature
        (verify_payment hmac now1 order_id payment_id signature db).2).2.map
        Payment.status =
      (verify_payment hmac now1 order_id payment_id signature db).2.map
        Payment.status := by
  subst hsig
  have hpres : ∀ p, payment_order_matches order_id (verify_update payment_id now1 p) =
      payment_order_matches order_id p := fun p => rfl
  have hfind1 : (update_first (payment_order_matches order_id)
      (verify_update payment_id now1) db).find? (payment_order_matches order_id) =
      some (verify_update payment_id now1 pay) :=
    find?_update_first _ _ hpres db pay hfind
  have h1 : verify_payment hmac now1 order_id payment_id
      (hmac (sig_payload order_id payment_id)) db =
      (VerifyResult.ok pay.id,
       update_first (payment_order_matches order_id)
         (verify_update payment_id now1) db) := by
    simp [verify_payment, hfind]
  have h2 : verify_payment hmac now2 order_id payment_id
      (hmac (sig_payload order_id payment_id))
      (update_first (payment_order_matches order_id)
        (verify_update payment_id now1) db) =
      (VerifyResult.ok (verify_update payment_id now1 pay).id,
       update_first (payment_order_matches order_id)
         (verify_update payment_id now2)
         (update_first (payment_order_matches order_id)
           (verify_update payment_id now1) db)) := by
    simp [verify_payment, hfind1]
  refine ⟨?_, ?_, ?_⟩
  · rw [h1]
  · rw [h1]
    simp [hfind1, verify_update]
  · rw [h1, h2]
    show (update_first (payment_order_matches order_id)
        (verify_update payment_id now2)
        (update_first (payment_order_matches order_id)
          (verify_update payment_id now1) db)).map Payment.status = _
    rw [update_first_update_first _ _ _ hpres]
    exact map_update_first_congr (payment_order_matches order_id)
      (fun x => verify_update payment_id now2 (verify_update payment_id now1 x))
      (verify_update payment_id now1) Payment.status (fun p => rfl) db

/-- Witness for C2: one pending payment, the matching signature, two
verification calls at different timestamps. -/
theorem verify_payment_idempotent_status_witness :
    (verify_payment (fun s => s ++ "#mac") 3 "order_1" "pay_1" "order_1|pay_1#mac"
        [{ id := 1, session_id := 10, student_id := 1, mentor_id := 2,
           amount := 500, razorpay_order_id := some "order_1" }]).1 =
      VerifyResult.ok 1 ∧
    ((verify_payment (fun s => s ++ "#mac") 3 "order_1" "pay_1" "order_1|pay_1#mac"
        [{ id := 1, session_id := 10, student_id := 1, mentor_id := 2,
           amount := 500, razorpay_order_id := some "order_1" }]).2.find?
        (payment_order_matches "order_1")).map Payment.status = some "completed" ∧
    (verify_payment (fun s => s ++ "#mac") 9 "order_1" "pay_1" "order_1|pay_1#mac"
        (verify_payment (fun s => s ++ "#mac") 3 "order_1" "pay_1" "order_1|pay_1#mac"
          [{ id := 1, session_id := 10, student_id := 1, mentor_id := 2,
             amount := 500, razorpay_order_id := some "order_1" }]).2).2.map
        Payment.status =
      (verify_payment (fun s => s ++ "#mac") 3 "order_1" "pay_1" "order_1|pay_1#mac"
        [{ id := 1, session_id := 10, student_id := 1, mentor_id := 2,
           amount := 500, razorpay_order_id := some "order_1" }]).2.map
        Payment.status :=
  verify_payment_idempotent_status (fun s => s ++ "#mac") 3 9 "order_1" "pay_1"
    "order_1|pay_1#mac" _
    { id := 1, session_id := 10, student_id := 1, mentor_id := 2,
      amount := 500, razorpay_order_id := some "order_1" }
    (by decide) (by decide)

/-- Outcome of a session route handler: `ok` is the flash-and-redirect
path after the commit, `http403` is `abort(403)`. -/
inductive RouteResult where
  | ok
  | http403
deriving Repr, DecidableEq

/-- Embeds the `respond_request` handler (mentorship/routes.py lines 131
to 146).  The session row fetched by `get_or_404` is passed in; the result
carries the handler outcome, the session row after the commit and the list
of Notification rows the handler adds.  The handler checks only that the
actor is a mentor and is the mentor of the session; it never consults the
current status before assigning the new one, and an action other than
`accept` or `decline` falls through to the commit with no change. -/
def respond_request (actor : User) (s : Session) (action : String) :
    RouteResult × Session × List Notification :=
  if ¬ actor.is_mentor = true ∨ s.mentor_id ≠ actor.id then
    (RouteResult.http403, s, [])
  else if action = "accept" then
    (RouteResult.ok, { s with status := "accepted" },
     [{ user_id := s.student_id,
        message := "Your request was accepted by " ++ actor.name }])
  else if action = "decline" then
    (RouteResult.ok, { s with status := "declined" },
     [{ user_id := s.student_id,
        message := "Your request was declined by " ++ actor.name }])
  else
    (RouteResult.ok, s, [])

/-- Embeds the `leave_review` handler (mentorship/routes.py lines 236 to
250).  Only the session student passes the authorization check; a valid
form adds a Review row and sets the session status to `completed`, with no
check of the current status; an invalid form just redirects. -/
def leave_review (actor : User) (s : Session) (form_valid : Bool)
    (rating : Int) (comment : String) :
    RouteResult × Session × List Review :=
  if s.student_id ≠ actor.id then
    (RouteResult.http403, s, [])
  else if form_valid then
    (RouteResult.ok, { s with status := "completed" },
     [{ session_id := s.id, student_id := actor.id, mentor_id := s.mentor_id,
        rating := rating, comment := comment }])
  else
    (RouteResult.ok, s, [])

/-- Counterexample to C3: a session already in the terminal state
`declined` is moved to `accepted` by a later accept action of its mentor,
because respond_request never reads the current status. -/
theorem declined_session_reaccepted :
    (respond_request { id := 2, name := "B", role := "mentor" }
        { id := 7, student_id := 1, mentor_id := 2, topic := "T",
          scheduled_at := 0, status := "declined" } "accept").2.1.status =
      "accepted" ∧ ("accepted" : String) ≠ "declined" := by
  exact ⟨rfl, by decide⟩

/-- C3 amended: the handlers enforce no state-machine edges at all.  An
accept or decline by the session mentor overwrites the status from any
prior state, terminal states included, and a review submission by the
session student overwrites any prior status with `completed`. -/
theorem session_transitions_unguarded (actor : User) (s : Session)
    (student : User) (s2 : Session) (rating : Int) (comment : String)
    (hm : actor.is_mentor = true) (hmid : s.mentor_id = actor.id)
    (hst : s2.student_id = student.id) :
    (respond_request actor s "accept").2.1.status = "accepted" ∧
    (respond_request actor s "decline").2.1.status = "declined" ∧
    (leave_review student s2 true rating comment).2.1.status = "completed" := by
  refine ⟨?_, ?_, ?_⟩
  · simp [respond_request, hm, hmid]
  · simp [respond_request, hm, hmid]
  · simp [leave_review, hst]

/-- Witness for the amended C3: both sessions start in the terminal state
`declined` and are still rewritten. -/
theorem session_transitions_unguarded_witness :
    (respond_request { id := 2, name := "B", role := "mentor" }
        { id := 7, student_id := 1, mentor_id := 2, status := "declined" }
        "accept").2.1.status = "accepted" ∧
    (respond_request { id := 2, name := "B", role := "mentor" }
        { id := 7, student_id := 1, mentor_id := 2, status := "declined" }
        "decline").2.1.status = "declined" ∧
    (leave_review { id := 1, name := "A", role := "student" }
        { id := 7, student_id := 1, mentor_id := 2, status := "declined" }
        true 5 "great").2.1.status = "completed" :=
  session_transitions_unguarded { id := 2, name := "B", role := "mentor" }
    { id := 7, student_id := 1, mentor_id := 2, status := "declined" }
    { id := 1, name := "A", role := "student" }
    { id := 7, student_id := 1, mentor_id := 2, status := "declined" }
    5 "great" (by decide) rfl rfl

/-- C4: the accept and decline transitions succeed exactly for the mentor
of the session; every other actor gets HTTP 403 with the session row, and
hence its status, untouched. -/
theorem respond_request_authorization (actor : User) (s : Session)
    (action : String) :
    (¬ (actor.is_mentor = true ∧ s.mentor_id = actor.id) →
       respond_request actor s action = (RouteResult.http403, s, [])) ∧
    (actor.is_mentor = true → s.mentor_id = actor.id →
       (action = "accept" →
          (respond_request actor s action).1 = RouteResult.ok ∧
          (respond_request actor s action).2.1.status = "accepted") ∧
       (action = "decline" →
          (respond_request actor s action).1 = RouteResult.ok ∧
          (respond_request actor s action).2.1.status = "declined")) := by
  constructor
  · intro h
    have hcond : ¬ actor.is_mentor = true ∨ s.mentor_id ≠ actor.id := by
      by_cases hm : actor.is_mentor = true
      · right
        intro heq
        exact h ⟨hm, heq⟩
      · left; exact hm
    unfold respond_request
    rw [if_pos hcond]
  · intro hm hmid
    constructor
    · intro ha; subst ha
      constructor <;> simp [respond_request, hm, hmid]
    · intro ha; subst ha
      constructor <;> simp [respond_request, hm, hmid]

/-- Witness for C4: the student actor is rejected with 403 on a session of
another mentor and the session row is returned untouched, while the real
mentor accept succeeds. -/
theorem respond_request_authorization_witness :
    respond_request { id := 1, name := "A", role := "student" }
        { id := 7, student_id := 1, mentor_id := 2, status := "requested" }
        "accept" =
      (RouteResult.http403,
       { id := 7, student_id := 1, mentor_id := 2, status := "requested" },
       []) ∧
    (respond_request { id := 2, name := "B", role := "mentor" }
        { id := 7, student_id := 1, mentor_id := 2, status := "requested" }
        "accept").1 = RouteResult.ok ∧
    (respond_request { id := 2, name := "B", role := "mentor" }
        { id := 7, student_id := 1, mentor_id := 2, status := "requested" }
        "accept").2.1.status = "accepted" :=
  ⟨(respond_request_authorization { id := 1, name := "A", role := "student" }
      { id := 7, student_id := 1, mentor_id := 2, status := "requested" }
      "accept").1 (by decide),
   ((respond_request_authorization { id := 2, name := "B", role := "mentor" }
      { id := 7, student_id := 1, mentor_id := 2, status := "requested" }
      "accept").2 (by decide) rfl).1 rfl⟩

/-- The order dict create_order sends to the gateway (services.py lines 35
to 44).  `amount` is `int(amount * 100)` in the source; with the integer
amounts of PaymentForm this is exactly `amount * 100` paise. -/
structure OrderData where
  amount : Int
  currency : String
  receipt : String
  note_session_id : Nat
  note_student_id : Nat
  note_mentor_id : Nat
deriving Repr, DecidableEq

/-- Builds the order dict of `PaymentService.create_order`. -/
def order_data_of (session_id student_id mentor_id : Nat) (amount : Int) :
    OrderData :=
  { amount := amount * 100,
    currency := "INR",
    receipt := "session_" ++ toString session_id,
    note_session_id := session_id,
    note_student_id := student_id,
    note_mentor_id := mentor_id }

/-- Result dict of `PaymentService.create_order`: the success dict carries
order id, amount and currency; `err` carries the stringified exception. -/
inductive OrderResult where
  | ok (order_id : String) (amount : Int) (currency : String)
  | err (msg : String)
deriving Repr, DecidableEq

/-- Embeds `PaymentService.create_order` (services.py lines 28 to 67).
`gateway` is the outcome of `client.order.create(data=order_data)`: `ok`
returns the gateway order id, `error` is the exception the client raises,
caught by the `except` before any row is added.  On success exactly one
Payment row keyed by the returned order id is appended with status
`pending` before the success dict is returned. -/
def create_order (gateway : OrderData → Except String String)
    (session_id student_id mentor_id : Nat) (amount : Int)
    (db : List Payment) (next_id : Nat) : OrderResult × List Payment :=
  match gateway (order_data_of session_id student_id mentor_id amount) with
  | Except.ok oid =>
      (OrderResult.ok oid amount "INR",
       db ++ [{ id := next_id, session_id := session_id,
                student_id := student_id, mentor_id := mentor_id,
                amount := amount, razorpay_order_id := some oid,
                status := "pending" }])
  | Except.error e => (OrderResult.err e, db)

/-- C5: create_order sends the minor-unit amount `amount * 100` to the
gateway; when the gateway call succeeds it appends exactly one pending
Payment row keyed by the returned order id and returns the success dict
with the original amount and currency INR; when the gateway call fails it
returns the failure dict and adds no row. -/
theorem create_order_minor_units (gateway : OrderData → Except String String)
    (session_id student_id mentor_id : Nat) (amount : Int)
    (db : List Payment) (next_id : Nat) (_hpos : 0 < amount) :
    (order_data_of session_id student_id mentor_id amount).amount =
        amount * 100 ∧
    (∀ oid, gateway (order_data_of session_id student_id mentor_id amount) =
        Except.ok oid →
      create_order gateway session_id student_id mentor_id amount db next_id =
        (OrderResult.ok oid amount "INR",
         db ++ [{ id := next_id, session_id := session_id,
                  student_id := student_id, mentor_id := mentor_id,
                  amount := amount, razorpay_order_id := some oid,
                  status := "pending" }])) ∧
    (∀ e, gateway (order_data_of session_id student_id mentor_id amount) =
        Except.error e →
      create_order gateway session_id student_id mentor_id amount db next_id =
        (OrderResult.err e, db)) := by
  refine ⟨rfl, ?_, ?_⟩
  · intro oid h
    simp [create_order, h]
  · intro e h
    simp [create_order, h]

/-- Witness for C5: amount 500 is sent to the gateway as 50000 paise and
persisted as a pending Payment of 500 keyed by the returned order id. -/
theorem create_order_minor_units_witness :
    (order_data_of 10 1 2 500).amount = 500 * 100 ∧
    create_order (fun _ => Except.ok "order_1") 10 1 2 500 [] 1 =
      (OrderResult.ok "order_1" 500 "INR",
       [] ++ [{ id := 1, session_id := 10, student_id := 1, mentor_id := 2,
                amount := 500, razorpay_order_id := some "order_1",
                status := "pending" }]) :=
  ⟨(create_order_minor_units (fun _ => Except.ok "order_1") 10 1 2 500 [] 1
      (by decide)).1,
   (create_order_minor_units (fun _ => Except.ok "order_1") 10 1 2 500 [] 1
      (by decide)).2.1 "order_1" rfl⟩

/-- Outcome of the `initiate_payment` route handler
(mentorship/payment_routes.py lines 15 to 63).  `checkout` stands for the
`razorpay_checkout.html` render; it is never produced, because the source
computes the `key_id` keyword argument as
`current_user.app.config['RAZORPAY_KEY_ID']` and the User model
(models.py) has no attribute `app`, so evaluating the argument raises an
AttributeError that no handler catches: that is the `attributeError`
outcome.  `preconditionFailed` is the flash of
`You can only pay for accepted sessions` followed by the redirect to
my_sessions; `orderFailed` is the flash of the create_order error over the
re-rendered form; `renderForm` is the plain form render. -/
inductive InitiateResult where
  | http403
  | preconditionFailed
  | attributeError
  | checkout (order_id : String) (amount : Int) (session_id : Nat)
  | orderFailed (msg : String)
  | renderForm
deriving Repr, DecidableEq

/-- Embeds the `initiate_payment` handler (mentorship/payment_routes.py
lines 15 to 63): ownership check, accepted-status check, then on a valid
form submission create_order; on gateway success the handler writes the
chosen payment method onto the row keyed by the returned order id and
commits, and then raises the AttributeError described above. -/
def initiate_payment (gateway : OrderData → Except String String)
    (actor : User) (s : Session) (form_submitted : Bool)
    (amount : Int) (payment_method : String)
    (db : List Payment) (next_id : Nat) : InitiateResult × List Payment :=
  if s.student_id ≠ actor.id then (InitiateResult.http403, db)
  else if s.status ≠ "accepted" then (InitiateResult.preconditionFailed, db)
  else if form_submitted then
    match create_order gateway s.id actor.id s.mentor_id amount db next_id with
    | (OrderResult.ok oid _ _, db1) =>
        (InitiateResult.attributeError,
         update_first (payment_order_matches oid)
           (fun p => { p with payment_method := some payment_method }) db1)
    | (OrderResult.err msg, db1) => (InitiateResult.orderFailed msg, db1)
  else (InitiateResult.renderForm, db)

/-- C6: payment initiation on a session that is not in `accepted` status
(by the student who owns it) fails with the precondition flash and
redirect, leaves the payment table untouched, and its outcome does not
depend on the gateway at all, so no gateway order is requested. -/
theorem initiate_payment_requires_accepted
    (gateway : OrderData → Except String String) (actor : User) (s : Session)
    (form_submitted : Bool) (amount : Int) (payment_method : String)
    (db : List Payment) (next_id : Nat)
    (hown : s.student_id = actor.id) (hst : s.status ≠ "accepted") :
    initiate_payment gateway actor s form_submitted amount payment_method
        db next_id = (InitiateResult.preconditionFailed, db) ∧
    ∀ gateway2, initiate_payment gateway2 actor s form_submitted amount
        payment_method db next_id =
      initiate_payment gateway actor s form_submitted amount payment_method
        db next_id := by
  have h1 : ∀ g : OrderData → Except String String,
      initiate_payment g actor s form_submitted amount payment_method
        db next_id = (InitiateResult.preconditionFailed, db) := by
    intro g
    unfold initiate_payment
    rw [if_neg (fun h => h hown), if_pos hst]
  exact ⟨h1 gateway, fun g2 => (h1 g2).trans (h1 gateway).symm⟩

/-- Witness for C6: a declined session and its student; the state is
untouched whatever the gateway would have answered. -/
theorem initiate_payment_requires_accepted_witness :
    initiate_payment (fun _ => Except.ok "order_1")
        { id := 1, name := "A", role := "student" }
        { id := 7, student_id := 1, mentor_id := 2, status := "declined" }
        true 500 "card" [] 1 = (InitiateResult.preconditionFailed, []) ∧
    ∀ gateway2, initiate_payment gateway2
        { id := 1, name := "A", role := "student" }
        { id := 7, student_id := 1, mentor_id := 2, status := "declined" }
        true 500 "card" [] 1 =
      initiate_payment (fun _ => Except.ok "order_1")
        { id := 1, name := "A", role := "student" }
        { id := 7, student_id := 1, mentor_id := 2, status := "declined" }
        true 500 "card" [] 1 :=
  initiate_payment_requires_accepted (fun _ => Except.ok "order_1")
    { id := 1, name := "A", role := "student" }
    { id := 7, student_id := 1, mentor_id := 2, status := "declined" }
    true 500 "card" [] 1 rfl (by decide)

/-- C10: whenever create_order succeeds inside the initiate_payment
handler (student actor, accepted session, submitted form, gateway order id
fresh for the table), the handler ends in the unhandled AttributeError:
the checkout page is never returned, while the pending Payment row,
already committed with the chosen payment method, persists. -/
theorem initiate_payment_attribute_error
    (gateway : OrderData → Except String String) (actor : User) (s : Session)
    (amount : Int) (payment_method : String) (db : List Payment)
    (next_id : Nat) (oid : String)
    (hown : s.student_id = actor.id) (hacc : s.status = "accepted")
    (hgw : gateway (order_data_of s.id actor.id s.mentor_id amount) =
      Except.ok oid)
    (hfresh : ∀ p ∈ db, p.razorpay_order_id ≠ some oid) :
    initiate_payment gateway actor s true amount payment_method db next_id =
      (InitiateResult.attributeError,
       db ++ [{ id := next_id, session_id := s.id, student_id := actor.id,
                mentor_id := s.mentor_id, amount := amount,
                razorpay_order_id := some oid, status := "pending",
                payment_method := some payment_method }]) := by
  have hco : create_order gateway s.id actor.id s.mentor_id amount db next_id =
      (OrderResult.ok oid amount "INR",
       db ++ [{ id := next_id, session_id := s.id, student_id := actor.id,
                mentor_id := s.mentor_id, amount := amount,
                razorpay_order_id := some oid, status := "pending" }]) := by
    simp [create_order, hgw]
  have hup : update_first (payment_order_matches oid)
      (fun p => { p with payment_method := some payment_method })
      (db ++ [{ id := next_id, session_id := s.id, student_id := actor.id,
                mentor_id := s.mentor_id, amount := amount,
                razorpay_order_id := some oid, status := "pending" }]) =
      db ++ [{ id := next_id, session_id := s.id, student_id := actor.id,
               mentor_id := s.mentor_id, amount := amount,
               razorpay_order_id := some oid, status := "pending",
               payment_method := some payment_method }] := by
    have hq : ∀ y ∈ db, payment_order_matches oid y = false := by
      intro y hy
      simp [payment_order_matches]
      exact hfresh y hy
    exact update_first_append_singleton _ _ db _ hq (by simp [payment_order_matches])
  simp [initiate_payment, hown, hacc, hco, hup]

/-- Witness for C10: an accepted session, its student, a succeeding
gateway and an empty payment table. -/
theorem initiate_payment_attribute_error_witness :
    initiate_payment (fun _ => Except.ok "order_1")
        { id := 1, name := "A", role := "student" }
        { id := 7, student_id := 1, mentor_id := 2, status := "accepted" }
        true 500 "card" [] 3 =
      (InitiateResult.attributeError,
       [] ++ [{ id := 3, session_id := 7, student_id := 1, mentor_id := 2,
                amount := 500, razorpay_order_id := some "order_1",
                status := "pending", payment_method := some "card" }]) :=
  initiate_payment_attribute_error (fun _ => Except.ok "order_1")
    { id := 1, name := "A", role := "student" }
    { id := 7, student_id := 1, mentor_id := 2, status := "accepted" }
    500 "card" [] 3 "order_1" rfl rfl rfl (by simp)

/-- Result dict of `PaymentService.refund_payment`. -/
inductive RefundResult where
  | ok (refund_id : String)
  | err (msg : String)
deriving Repr, DecidableEq

/-- The `refund_data` dict sent to the gateway (services.py lines 107 to
110): Python `if amount:` is truthy only for a present non-zero amount, in
which case the minor-unit `int(amount * 100)` is put into the dict;
otherwise the dict stays empty, which the gateway treats as a full
refund. -/
def refund_request_amount : Option Int → Option Int
  | some a => if a = 0 then none else some (a * 100)
  | none => none

/-- Embeds `PaymentService.refund_payment` (services.py lines 98 to 120).
`grefund` is the outcome of `client.payment.refund(razorpay_payment_id,
refund_data)`; its `error` case is the exception the client raises, caught
by the `except` with the table untouched.  A missing row or a row without
a gateway payment id yields the `Payment not found` failure dict before
any gateway call. -/
def refund_payment (grefund : String → Option Int → Except String String)
    (now : Nat) (payment_id : Nat) (amount : Option Int)
    (db : List Payment) : RefundResult × List Payment :=
  match db.find? (payment_id_matches payment_id) with
  | none => (RefundResult.err "Payment not found", db)
  | some pay =>
    match pay.razorpay_payment_id with
    | none => (RefundResult.err "Payment not found", db)
    | some rpid =>
      match grefund rpid (refund_request_amount amount) with
      | Except.ok rid =>
          (RefundResult.ok rid,
           update_first (payment_id_matches payment_id)
             (fun p => { p with status := "refunded", updated_at := now }) db)
      | Except.error e => (RefundResult.err e, db)

/-- C7: refund_payment fails with the `Payment not found` dict and an
untouched table when no Payment has the id or the row has no gateway
payment id; otherwise, when the gateway refund succeeds, it returns the
refund id and moves exactly that row to `refunded`; the amount forwarded
to the gateway is the partial minor-unit amount when one is given and the
empty full-refund request when none is. -/
theorem refund_payment_spec
    (grefund : String → Option Int → Except String String) (now : Nat)
    (payment_id : Nat) (amount : Option Int) (db : List Payment) :
    (db.find? (payment_id_matches payment_id) = none →
       refund_payment grefund now payment_id amount db =
         (RefundResult.err "Payment not found", db)) ∧
    (∀ pay, db.find? (payment_id_matches payment_id) = some pay →
       pay.razorpay_payment_id = none →
       refund_payment grefund now payment_id amount db =
         (RefundResult.err "Payment not found", db)) ∧
    (∀ pay rpid rid, db.find? (payment_id_matches payment_id) = some pay →
       pay.razorpay_payment_id = some rpid →
       grefund rpid (refund_request_amount amount) = Except.ok rid →
       refund_payment grefund now payment_id amount db =
         (RefundResult.ok rid,
          update_first (payment_id_matches payment_id)
            (fun p => { p with status := "refunded", updated_at := now }) db) ∧
       ((refund_payment grefund now payment_id amount db).2.find?
           (payment_id_matches payment_id)).map Payment.status =
         some "refunded") ∧
    refund_request_amount none = none ∧
    (∀ a : Int, a ≠ 0 → refund_request_amount (some a) = some (a * 100)) := by
  refine ⟨?_, ?_, ?_, rfl, ?_⟩
  · intro h
    simp [refund_payment, h]
  · intro pay hfind hnone
    simp [refund_payment, hfind, hnone]
  · intro pay rpid rid hfind hrpid hgw
    have heq : refund_payment grefund now payment_id amount db =
        (RefundResult.ok rid,
         update_first (payment_id_matches payment_id)
           (fun p => { p with status := "refunded", updated_at := now }) db) := by
      simp [refund_payment, hfind, hrpid, hgw]
    refine ⟨heq, ?_⟩
    rw [heq]
    have hres := find?_update_first (payment_id_matches payment_id)
      (fun p => { p with status := "refunded", updated_at := now })
      (fun p => rfl) db pay hfind
    simp [hres]
  · intro a ha
    simp [refund_request_amount, ha]

/-- Witness for C7, success side: an existing payment with a stamped
gateway payment id, a succeeding gateway, a partial amount of 200. -/
theorem refund_payment_spec_witness :
    (([{ id := 4, session_id := 10, student_id := 1, mentor_id := 2,
         amount := 500, razorpay_order_id := some "order_1",
         razorpay_payment_id := some "pay_1",
         status := "completed" }] : List Payment).find?
        (payment_id_matches 4) =
      some { id := 4, session_id := 10, student_id := 1, mentor_id := 2,
             amount := 500, razorpay_order_id := some "order_1",
             razorpay_payment_id := some "pay_1", status := "completed" }) ∧
    refund_payment (fun _ _ => Except.ok "rfnd_1") 11 4 (some 200)
        [{ id := 4, session_id := 10, student_id := 1, mentor_id := 2,
           amount := 500, razorpay_order_id := some "order_1",
           razorpay_payment_id := some "pay_1", status := "completed" }] =
      (RefundResult.ok "rfnd_1",
       update_first (payment_id_matches 4)
         (fun p => { p with status := "refunded", updated_at := 11 })
         [{ id := 4, session_id := 10, student_id := 1, mentor_id := 2,
            amount := 500, razorpay_order_id := some "order_1",
            razorpay_payment_id := some "pay_1", status := "completed" }]) ∧
    ((refund_payment (fun _ _ => Except.ok "rfnd_1") 11 4 (some 200)
        [{ id := 4, session_id := 10, student_id := 1, mentor_id := 2,
           amount := 500, razorpay_order_id := some "order_1",
           razorpay_payment_id := some "pay_1",
           status := "completed" }]).2.find?
        (payment_id_matches 4)).map Payment.status = some "refunded" :=
  ⟨by decide,
   ((refund_payment_spec (fun _ _ => Except.ok "rfnd_1") 11 4 (some 200)
      [{ id := 4, session_id := 10, student_id := 1, mentor_id := 2,
         amount := 500, razorpay_order_id := some "order_1",
         razorpay_payment_id := some "pay_1", status := "completed" }]).2.2.1
      { id := 4, session_id := 10, student_id := 1, mentor_id := 2,
        amount := 500, razorpay_order_id := some "order_1",
        razorpay_payment_id := some "pay_1", status := "completed" }
      "pay_1" "rfnd_1" (by decide) rfl rfl).1,
   ((refund_payment_spec (fun _ _ => Except.ok "rfnd_1") 11 4 (some 200)
      [{ id := 4, session_id := 10, student_id := 1, mentor_id := 2,
         amount := 500, razorpay_order_id := some "order_1",
         razorpay_payment_id := some "pay_1", status := "completed" }]).2.2.1
      { id := 4, session_id := 10, student_id := 1, mentor_id := 2,
        amount := 500, razorpay_order_id := some "order_1",
        razorpay_payment_id := some "pay_1", status := "completed" }
      "pay_1" "rfnd_1" (by decide) rfl rfl).2⟩

/-- Embeds `app.models.EmailNotification` (models.py): one append-only
log row per email dispatch attempt. -/
structure EmailRow where
  recipient_email : String
  subject : String
  body : String
  notification_type : String
  status : String
  sent_at : Option Nat
deriving Repr, DecidableEq

/-- Embeds `app.models.SMSNotification` (models.py): one append-only log
row per SMS dispatch attempt. -/
structure SMSRow where
  phone_number : String
  message : String
  notification_type : String
  status : String
  twilio_sid : Option String
  sent_at : Option Nat
deriving Repr, DecidableEq

/-- Result dict of `EmailService._send_email`. -/
inductive EmailResult where
  | ok
  | err (msg : String)
deriving Repr, DecidableEq

/-- Result dict of `SMSService._send_sms`: the success dict carries the
Twilio message sid. -/
inductive SMSResult where
  | ok (sms_sid : String)
  | err (msg : String)
deriving Repr, DecidableEq

/-- Embeds `EmailService._send_email` (services.py lines 205 to 240).
`transport` is the outcome of `mail.send(msg)`: an exception there lands
in the `except` branch, which logs a `failed` row and returns the failure
dict, so nothing propagates to the caller.  Success logs a `sent` row
stamped with `sent_at`. -/
def send_email (transport : Except String Unit) (now : Nat)
    (recipient subject body notification_type : String)
    (log : List EmailRow) : EmailResult × List EmailRow :=
  match transport with
  | Except.ok _ =>
      (EmailResult.ok,
       log ++ [{ recipient_email := recipient, subject := subject,
                 body := body, notification_type := notification_type,
                 status := "sent", sent_at := some now }])
  | Except.error e =>
      (EmailResult.err e,
       log ++ [{ recipient_email := recipient, subject := subject,
                 body := body, notification_type := notification_type,
                 status := "failed", sent_at := none }])

/-- Embeds `SMSService._send_sms` (services.py lines 287 to 321).
`transport` is the outcome of `client.messages.create(...)`, returning the
Twilio sid on success; an exception lands in the `except` branch, which
logs a `failed` row and returns the failure dict. -/
def send_sms (transport : Except String String) (now : Nat)
    (phone_number message notification_type : String)
    (log : List SMSRow) : SMSResult × List SMSRow :=
  match transport with
  | Except.ok sid =>
      (SMSResult.ok sid,
       log ++ [{ phone_number := phone_number, message := message,
                 notification_type := notification_type, status := "sent",
                 twilio_sid := some sid, sent_at := some now }])
  | Except.error e =>
      (SMSResult.err e,
       log ++ [{ phone_number := phone_number, message := message,
                 notification_type := notification_type, status := "failed",
                 twilio_sid := none, sent_at := none }])

/-- C8: every email or SMS dispatch attempt appends exactly one log row:
status `sent` with `sent_at` stamped when the transport call succeeds and
status `failed` when it raises; in every case the caller receives the
structured success or failure dict, never the transport exception. -/
theorem notification_log_exactly_once (et : Except String Unit)
    (st : Except String String) (now : Nat)
    (recipient subject body ntype phone msg ntype2 : String)
    (elog : List EmailRow) (slog : List SMSRow) :
    (∃ row, (send_email et now recipient subject body ntype elog).2 =
        elog ++ [row] ∧
      (et = Except.ok () →
        row.status = "sent" ∧ row.sent_at = some now ∧
        (send_email et now recipient subject body ntype elog).1 =
          EmailResult.ok) ∧
      (∀ e, et = Except.error e →
        row.status = "failed" ∧
        (send_email et now recipient subject body ntype elog).1 =
          EmailResult.err e)) ∧
    (∃ row, (send_sms st now phone msg ntype2 slog).2 = slog ++ [row] ∧
      (∀ sid, st = Except.ok sid →
        row.status = "sent" ∧ row.sent_at = some now ∧
        (send_sms st now phone msg ntype2 slog).1 = SMSResult.ok sid) ∧
      (∀ e, st = Except.error e →
        row.status = "failed" ∧
        (send_sms st now phone msg ntype2 slog).1 = SMSResult.err e)) := by
  constructor
  · cases et with
    | ok u =>
        refine ⟨_, rfl, fun _ => ⟨rfl, rfl, rfl⟩, fun e he => ?_⟩
        cases he
    | error e =>
        refine ⟨_, rfl, fun h => ?_, fun e2 he2 => ?_⟩
        · cases h
        · cases he2
          exact ⟨rfl, rfl⟩
  · cases st with
    | ok sid =>
        refine ⟨_, rfl, fun sid2 hs => ?_, fun e he => ?_⟩
        · cases hs
          exact ⟨rfl, rfl, rfl⟩
        · cases he
    | error e =>
        refine ⟨_, rfl, fun sid hs => ?_, fun e2 he2 => ?_⟩
        · cases hs
        · cases he2
          exact ⟨rfl, rfl⟩

/-- Witness for C8: a succeeding email transport appends one `sent` row
with `sent_at` stamped, a failing SMS transport appends one `failed` row
and still returns the structured failure dict. -/
theorem notification_log_exactly_once_witness :
    (∃ row, (send_email (Except.ok ()) 5 "m@x.com" "Hi" "b" "payment" []).2 =
        [] ++ [row] ∧
      row.status = "sent" ∧ row.sent_at = some 5 ∧
      (send_email (Except.ok ()) 5 "m@x.com" "Hi" "b" "payment" []).1 =
        EmailResult.ok) ∧
    (∃ row, (send_sms (Except.error "boom") 5 "+911" "msg" "payment" []).2 =
        [] ++ [row] ∧
      row.status = "failed" ∧
      (send_sms (Except.error "boom") 5 "+911" "msg" "payment" []).1 =
        SMSResult.err "boom") := by
  obtain ⟨⟨row, h1, h2, _⟩, ⟨row2, g1, _, g3⟩⟩ :=
    notification_log_exactly_once (Except.ok ()) (Except.error "boom") 5
      "m@x.com" "Hi" "b" "payment" "+911" "msg" "payment" [] []
  exact ⟨⟨row, h1, (h2 rfl).1, (h2 rfl).2.1, (h2 rfl).2.2⟩,
         ⟨row2, g1, (g3 "boom" rfl).1, (g3 "boom" rfl).2⟩⟩

/-- The iCalendar event built by `CalendarService.create_calendar_event`
(services.py lines 337 to 353), with the properties the source adds.
Times are seconds, so `timedelta(hours=1)` is 3600. -/
structure CalEvent where
  summary : String
  description : String
  dtstart : Nat
  dtend : Nat
  dtstamp : Nat
  uid : String
  location : String
  alarm_trigger : String
  alarm_action : String
  alarm_description : String
deriving Repr, DecidableEq

/-- The calendar document wrapping the event (services.py lines 331 to
335 and 355): the serialized `cal.to_ical()` output is modelled by the
document structure itself. -/
structure ICalendar where
  prodid : String
  version : String
  calscale : String
  events : List CalEvent
deriving Repr, DecidableEq

/-- Embeds `app.models.CalendarEvent` (models.py lines 167 to 181).  Note
that in the table both `session_id` and `ical_uid` carry a UNIQUE
constraint. -/
structure CalendarEventRow where
  id : Nat
  session_id : Nat
  user_id : Nat
  title : String
  description : Option String
  start_time : Nat
  end_time : Nat
  ical_uid : String
  notification_sent : Bool := false
deriving Repr, DecidableEq

/-- The f-string UID `session_{session_id}_{user_id}@mentorconnect.com`
(services.py line 346). -/
def calendar_uid (session_id user_id : Nat) : String :=
  "session_" ++ toString session_id ++ "_" ++ toString user_id ++
    "@mentorconnect.com"

/-- The event the service builds for a session (services.py lines 337 to
353); `session.description or ''` maps a missing description to the empty
string. -/
def calendar_event_of (now : Nat) (session_id user_id : Nat) (s : Session) :
    CalEvent :=
  { summary := "Session: " ++ s.topic,
    description := s.description.getD "",
    dtstart := s.scheduled_at,
    dtend := s.scheduled_at + 3600,
    dtstamp := now,
    uid := calendar_uid session_id user_id,
    location := "Online - MentorConnect Platform",
    alarm_trigger := "-PT15M",
    alarm_action := "DISPLAY",
    alarm_description := "Session Reminder" }

/-- The calendar document returned on success. -/
def calendar_doc_of (now : Nat) (session_id user_id : Nat) (s : Session) :
    ICalendar :=
  { prodid := "-//MentorConnect//EN",
    version := "2.0",
    calscale := "GREGORIAN",
    events := [calendar_event_of now session_id user_id s] }

/-- The CalendarEvent row the service persists (services.py lines 358 to
366). -/
def calendar_row_of (session_id user_id : Nat) (s : Session)
    (next_id : Nat) : CalendarEventRow :=
  { id := next_id,
    session_id := session_id,
    user_id := user_id,
    title := "Session: " ++ s.topic,
    description := s.description,
    start_time := s.scheduled_at,
    end_time := s.scheduled_at + 3600,
    ical_uid := calendar_uid session_id user_id }

/-- Whether `db.session.commit()` of the new CalendarEvent row succeeds:
the table (models.py lines 167 to 181) declares `session_id` and
`ical_uid` UNIQUE, so inserting a row that repeats either value raises an
IntegrityError, caught by the `except` of create_calendar_event. -/
def calendar_insert_ok (row : CalendarEventRow)
    (table : List CalendarEventRow) : Bool :=
  table.all (fun r =>
    !(r.session_id == row.session_id) && !(r.ical_uid == row.ical_uid))

/-- Result dict of `CalendarService.create_calendar_event`. -/
inductive CalResult where
  | ok (calendar_data : ICalendar) (event_id : Nat)
  | err (msg : String)
deriving Repr, DecidableEq

/-- Embeds `CalendarService.create_calendar_event` (services.py lines 327
to 376): builds the document, persists the row (the commit failing with an
IntegrityError when the UNIQUE columns of the table are violated, which
the `except` converts into the failure dict with the table unchanged) and
returns the serialized document together with the row id. -/
def create_calendar_event (now : Nat) (session_id user_id : Nat)
    (s : Session) (table : List CalendarEventRow) (next_id : Nat) :
    CalResult × List CalendarEventRow :=
  let row := calendar_row_of session_id user_id s next_id
  if calendar_insert_ok row table then
    (CalResult.ok (calendar_doc_of now session_id user_id s) next_id,
     table ++ [row])
  else
    (CalResult.err "UNIQUE constraint failed: calendar_event.session_id",
     table)

/-- Demonstration session for the C9 counterexample. -/
def demo_session : Session :=
  { id := 10, student_id := 1, mentor_id := 2, topic := "Intro",
    scheduled_at := 1000, status := "accepted" }

/-- Counterexample to C9: after the student (user 1) obtains the
CalendarEvent for session 10, the mentor (user 2) cannot: the UNIQUE
constraint on `calendar_event.session_id` makes the second insert fail, so
the two participants cannot each hold a CalendarEvent for the same
session. -/
theorem second_participant_calendar_event_fails :
    (create_calendar_event 0 10 2 demo_session
        (create_calendar_event 0 10 1 demo_session [] 1).2 2).1 =
      CalResult.err "UNIQUE constraint failed: calendar_event.session_id" ∧
    (create_calendar_event 0 10 2 demo_session
        (create_calendar_event 0 10 1 demo_session [] 1).2 2).2 =
      (create_calendar_event 0 10 1 demo_session [] 1).2 ∧
    (create_calendar_event 0 10 1 demo_session [] 1).2.length = 1 := by
  refine ⟨?_, ?_, rfl⟩ <;> rfl

/-- C9 amended: when the table holds no CalendarEvent for the session yet,
create_calendar_event persists the row for (session, user) and returns the
document whose event starts at `session.scheduled_at`, ends one hour
later, carries the 15-minute-prior reminder alarm and the UID derived from
the session id and user id; but because `calendar_event.session_id` is
UNIQUE, a session has at most one CalendarEvent in total, so any later
attempt for the same session by the other participant fails and persists
nothing. -/
theorem create_calendar_event_spec (now session_id user_id : Nat)
    (s : Session) (table : List CalendarEventRow) (next_id : Nat) :
    (calendar_insert_ok (calendar_row_of session_id user_id s next_id)
        table = true →
      create_calendar_event now session_id user_id s table next_id =
        (CalResult.ok (calendar_doc_of now session_id user_id s) next_id,
         table ++ [calendar_row_of session_id user_id s next_id]) ∧
      (calendar_event_of now session_id user_id s).dtstart =
        s.scheduled_at ∧
      (calendar_event_of now session_id user_id s).dtend =
        s.scheduled_at + 3600 ∧
      (calendar_event_of now session_id user_id s).alarm_trigger =
        "-PT15M" ∧
      (calendar_event_of now session_id user_id s).uid =
        calendar_uid session_id user_id ∧
      (calendar_row_of session_id user_id s next_id).session_id =
        session_id ∧
      (calendar_row_of session_id user_id s next_id).user_id = user_id) ∧
    ((∃ r ∈ table, r.session_id = session_id) →
      create_calendar_event now session_id user_id s table next_id =
        (CalResult.err "UNIQUE constraint failed: calendar_event.session_id",
         table)) := by
  constructor
  · intro hok
    refine ⟨?_, rfl, rfl, rfl, rfl, rfl, rfl⟩
    simp only [create_calendar_event, hok, if_true]
  · intro hdup
    obtain ⟨r, hr, hrs⟩ := hdup
    have hfail : calendar_insert_ok
        (calendar_row_of session_id user_id s next_id) table = false := by
      rw [calendar_insert_ok]
      rw [List.all_eq_false]
      refine ⟨r, hr, ?_⟩
      simp [calendar_row_of, hrs]
    simp only [create_calendar_event, hfail]
    rfl

/-- Witness for the amended C9: the first insert for session 10 and user 1
succeeds, and a pre-existing row for session 10 makes the insert for user
2 fail with the table unchanged. -/
theorem create_calendar_event_spec_witness :
    create_calendar_event 0 10 1 demo_session [] 1 =
      (CalResult.ok (calendar_doc_of 0 10 1 demo_session) 1,
       [] ++ [calendar_row_of 10 1 demo_session 1]) ∧
    create_calendar_event 0 10 2 demo_session
        [calendar_row_of 10 1 demo_session 1] 2 =
      (CalResult.err "UNIQUE constraint failed: calendar_event.session_id",
       [calendar_row_of 10 1 demo_session 1]) :=
  ⟨((create_calendar_event_spec 0 10 1 demo_session [] 1).1 (by decide)).1,
   (create_calendar_event_spec 0 10 2 demo_session
      [calendar_row_of 10 1 demo_session 1] 2).2
     ⟨calendar_row_of 10 1 demo_session 1, by simp, rfl⟩⟩

end MentorMatch
